import Mathlib

/-!
Verification of the burl HTTP client core against its specification.

The development shallowly embeds the relevant parts of the source:
cookie storage and matching (src/cookies.cpp), the authentication
schemes (src/auth.cpp), the response error raiser (response.hpp /
error.hpp) and the session operations (session.cpp).  C++ strings are
Lean `String`s, string sizes are byte counts, the system clock is an
explicit `now` parameter, exceptions become `Option`, and coroutine
results become plain pairs.
-/

namespace Burl

/-- Minimal view of a request URL: the accessors of boost::urls::url_view
that the embedded code reads.  `isHttps` models
`url.scheme_id() == urls::scheme::https`. -/
structure UrlView where
  host : String
  path : String
  isHttps : Bool
deriving DecidableEq

/-- SameSite attribute of a cookie (cookie::same_site_t). -/
inductive same_site_t where
  | none
  | lax
  | strict
deriving DecidableEq

/-- An HTTP cookie (struct cookie in cookies.hpp), with the same field
defaults as the C++ in-class member initializers.  The expiry time point
is a natural number; `none` denotes a session cookie. -/
structure Cookie where
  name : String
  value : String
  domain : String
  path : String := "/"
  expires : Option Nat := Option.none
  secure : Bool := false
  http_only : Bool := false
  same_site : same_site_t := same_site_t.lax
deriving DecidableEq

/-- cookie::is_expired.  The C++ reads the system clock; the current time
is passed explicitly as `now`.  A session cookie never expires. -/
def Cookie.is_expired (c : Cookie) (now : Nat) : Bool :=
  match c.expires with
  | Option.none => false
  | Option.some t => now > t

/-- std::string_view::starts_with: the first string begins with the
second. -/
def strStartsWith (s pre : String) : Bool :=
  pre.data.isPrefixOf s.data

/-- cookie::matches (cookies.cpp lines 31-68).  The domain check is the
simplified one of the source: when the cookie domain differs from the
host, the cookie is rejected only when the host is no longer than the
domain ("Proper domain suffix matching" is left as a TODO there, so any
longer host falls through).  The path check is a plain prefix test on
the request path, with an empty request path replaced by "/". -/
def Cookie.matches (c : Cookie) (url : UrlView) (now : Nat) : Bool :=
  if c.is_expired now then
    false
  else if c.secure && !url.isHttps then
    false
  else if c.domain ≠ url.host ∧ url.host.utf8ByteSize ≤ c.domain.utf8ByteSize then
    false
  else
    let req_path := if url.path = "" then "/" else url.path
    strStartsWith req_path c.path

/-- Comparison on the (name, domain, path) storage key, as used by the
find_if predicates of cookie_jar::set and cookie_jar::remove. -/
def sameKey (a b : Cookie) : Bool :=
  a.name == b.name && a.domain == b.domain && a.path == b.path

namespace CookieJar

/-- cookie_jar::set (cookies.cpp lines 74-95): erase the first stored
cookie with the same (name, domain, path) key, if any, then push the new
cookie at the back. -/
def set (jar : List Cookie) (c : Cookie) : List Cookie :=
  jar.eraseP (fun e => sameKey e c) ++ [c]

/-- cookie_jar::set_from_header (cookies.cpp lines 97-131): take the part
of the header before the first semicolon and split it at the first
equals sign; a missing equals sign makes the header invalid and the jar
is left unchanged.  The domain defaults to the request host and the path
to "/"; the source performs no attribute parsing and no whitespace
trimming.  The substring operations are expressed on the character
list of the header. -/
def set_from_header (jar : List Cookie) (header : String)
    (request_url : UrlView) : List Cookie :=
  let name_value := header.data.takeWhile (fun ch => ch ≠ ';')
  if name_value.contains '=' then
    set jar
      { name := String.mk (name_value.takeWhile (fun ch => ch ≠ '=')),
        value := String.mk ((name_value.dropWhile (fun ch => ch ≠ '=')).drop 1),
        domain := request_url.host,
        path := "/" }
  else
    jar

/-- cookie_jar::get_cookies (cookies.cpp lines 133-147): the stored
cookies that match the URL, in storage (insertion) order; the sort by
path length is left as a TODO in the source. -/
def get_cookies (jar : List Cookie) (url : UrlView) (now : Nat) : List Cookie :=
  jar.filter (fun c => c.matches url now)

/-- cookie_jar::get_cookie_header (cookies.cpp lines 149-169): join the
matching cookies as name=value pairs separated by "; "; the empty string
when nothing matches. -/
def get_cookie_header (jar : List Cookie) (url : UrlView) (now : Nat) : String :=
  let cookies := get_cookies jar url now
  if cookies.isEmpty then ""
  else String.intercalate "; " (cookies.map (fun c => c.name ++ "=" ++ c.value))

/-- cookie_jar::remove: erase the first cookie with the given key. -/
def remove (jar : List Cookie) (name domain path : String) : List Cookie :=
  jar.eraseP (fun c => c.name == name && c.domain == domain && c.path == path)

/-- cookie_jar::remove_expired: keep only the cookies that have not
expired. -/
def remove_expired (jar : List Cookie) (now : Nat) : List Cookie :=
  jar.filter (fun c => !c.is_expired now)

/-- cookie_jar::clear: remove all cookies. -/
def clear (_jar : List Cookie) : List Cookie := []

/-- Jar contents reachable from the default-constructed (empty) jar
through the public mutating operations. -/
inductive Reachable : List Cookie → Prop where
  | init : Reachable []
  | step_set : ∀ {j} (c : Cookie), Reachable j → Reachable (set j c)
  | step_set_from_header : ∀ {j} (h : String) (u : UrlView),
      Reachable j → Reachable (set_from_header j h u)
  | step_remove : ∀ {j} (n d p : String),
      Reachable j → Reachable (remove j n d p)
  | step_remove_expired : ∀ {j} (now : Nat),
      Reachable j → Reachable (remove_expired j now)
  | step_clear : ∀ {j}, Reachable j → Reachable (clear j)

end CookieJar

/-- No two stored cookies share the (name, domain, path) key. -/
def NoDupKey (jar : List Cookie) : Prop :=
  jar.Pairwise (fun a b => sameKey a b = false)

/-- The predicate sameKey is reflexive. -/
theorem sameKey_self (c : Cookie) : sameKey c c = true := by
  simp [sameKey]

/-- Unfolding of sameKey into component equalities. -/
theorem sameKey_iff (a b : Cookie) :
    sameKey a b = true ↔ a.name = b.name ∧ a.domain = b.domain ∧ a.path = b.path := by
  simp [sameKey, and_assoc]

/-- Two cookies agreeing in key with a third agree in key with each
other. -/
theorem sameKey_of_sameKey {a b c : Cookie}
    (hac : sameKey a c = true) (hbc : sameKey b c = true) :
    sameKey a b = true := by
  rw [sameKey_iff] at *
  exact ⟨hac.1.trans hbc.1.symm, hac.2.1.trans hbc.2.1.symm, hac.2.2.trans hbc.2.2.symm⟩

/-- Elements left by erasing the first key match never match the key,
provided the list had pairwise distinct keys. -/
theorem eraseP_sameKey_spec {c : Cookie} :
    ∀ {l : List Cookie}, NoDupKey l →
      ∀ x ∈ l.eraseP (fun e => sameKey e c), sameKey x c = false := by
  intro l
  induction l with
  | nil => intro _ x hx; cases hx
  | cons a l ih =>
    intro hnd x hx
    have ha := (List.pairwise_cons.mp hnd).1
    have hl := (List.pairwise_cons.mp hnd).2
    by_cases hpa : sameKey a c = true
    · rw [List.eraseP_cons_of_pos (p := fun e => sameKey e c) hpa] at hx
      by_cases hxc : sameKey x c = true
      · exact absurd (sameKey_of_sameKey hpa hxc) (by simp [ha x hx])
      · simpa using hxc
    · rw [List.eraseP_cons_of_neg (p := fun e => sameKey e c) (by simpa using hpa)] at hx
      rcases List.mem_cons.mp hx with rfl | hx
      · simpa using hpa
      · exact ih hl x hx

/-- Erasing the first match then filtering the matches away is the same
as filtering the matches away. -/
theorem filter_not_eraseP {α : Type} (p : α → Bool) (l : List α) :
    (l.eraseP p).filter (fun a => !p a) = l.filter (fun a => !p a) := by
  induction l with
  | nil => rfl
  | cons a l ih =>
    by_cases h : p a = true
    · rw [List.eraseP_cons_of_pos (p := p) h]
      simp [List.filter_cons, h]
    · rw [List.eraseP_cons_of_neg (p := p) (by simpa using h)]
      simp only [List.filter_cons, ih]

/-- cookie_jar::set preserves pairwise-distinct storage keys. -/
theorem noDupKey_set {l : List Cookie} (c : Cookie) (h : NoDupKey l) :
    NoDupKey (CookieJar.set l c) := by
  unfold CookieJar.set NoDupKey
  rw [List.pairwise_append]
  refine ⟨List.Pairwise.sublist (List.eraseP_sublist l) h,
    List.pairwise_singleton _ _, ?_⟩
  intro x hx b hb
  rcases List.mem_singleton.mp hb with rfl
  exact eraseP_sameKey_spec h x hx

/-- Every jar reachable through the public operations has pairwise
distinct (name, domain, path) keys. -/
theorem reachable_noDupKey {j : List Cookie} (h : CookieJar.Reachable j) :
    NoDupKey j := by
  induction h with
  | init => exact List.Pairwise.nil
  | step_set c _ ih => exact noDupKey_set c ih
  | step_set_from_header hd u _ ih =>
    unfold CookieJar.set_from_header
    dsimp only
    split
    · exact noDupKey_set _ ih
    · exact ih
  | step_remove n d p _ ih =>
    exact List.Pairwise.sublist (List.eraseP_sublist _) ih
  | step_remove_expired now _ ih =>
    exact List.Pairwise.sublist (List.filter_sublist _) ih
  | step_clear _ _ => exact List.Pairwise.nil

/-- After set, exactly one stored cookie has the inserted key. -/
theorem countP_set {l : List Cookie} (c : Cookie) (h : NoDupKey l) :
    (CookieJar.set l c).countP (fun e => sameKey e c) = 1 := by
  unfold CookieJar.set
  rw [List.countP_append]
  have h0 : (l.eraseP (fun e => sameKey e c)).countP (fun e => sameKey e c) = 0 := by
    rw [List.countP_eq_zero]
    intro a ha
    simp [eraseP_sameKey_spec h a ha]
  rw [h0]
  simp [List.countP_cons, sameKey_self]

/-- A list is a prefix of itself under a lawful boolean equality. -/
theorem isPrefixOf_self {α : Type} [BEq α] [LawfulBEq α] (l : List α) :
    l.isPrefixOf l = true := by
  induction l with
  | nil => rfl
  | cons a l ih => simp [List.isPrefixOf, ih]

/-- Every string starts with itself. -/
theorem strStartsWith_self (s : String) : strStartsWith s s = true :=
  isPrefixOf_self s.data

/-- Every string starts with the empty string. -/
theorem strStartsWith_empty (s : String) : strStartsWith s "" = true := by
  simp [strStartsWith, List.isPrefixOf]

/-- Joining a single string inserts no separator. -/
theorem intercalate_singleton (sep x : String) :
    String.intercalate sep [x] = x := rfl

/-- A fresh cookie stored for exactly the requested host and path matches
that request. -/
theorem matches_exact (n v H P : String) (now : Nat) :
    Cookie.matches { name := n, value := v, domain := H, path := P }
      { host := H, path := P, isHttps := false } now = true := by
  by_cases hP : P = ""
  · subst hP
    simp [Cookie.matches, Cookie.is_expired, strStartsWith_empty]
  · simp [Cookie.matches, Cookie.is_expired, hP, strStartsWith_self]

--------------------------------------------------------------------
-- Errors and responses
--------------------------------------------------------------------

/-- Structured HTTP error thrown by raise_for_status (class http_error in
error.hpp). -/
structure http_error where
  status_code_ : Nat
  reason_ : String
  url_ : String
  what_ : String
deriving DecidableEq

/-- Constructor http_error::http_error (error.hpp lines 222-232): stores
status, reason and URL and formats what() as "<status> <reason>: <url>". -/
def http_error.make (status_code : Nat) (reason url : String) : http_error :=
  { status_code_ := status_code,
    reason_ := reason,
    url_ := url,
    what_ := toString status_code ++ " " ++ reason ++ ": " ++ url }

/-- Status and reason of a boost::http::response message, as read through
the accessors that struct response delegates to. -/
structure http_message where
  status : Nat := 0
  reason : String := ""
deriving DecidableEq

/-- HTTP response with buffered body (template<class Body> struct response
in response.hpp).  The final URL is carried as its serialized buffer. -/
inductive response (Body : Type) : Type where
  | mk (message : http_message) (body : Body) (url : String) (elapsed : Nat)
      (history : List (response Body))

/-- Message part of a response. -/
def response.message {Body : Type} : response Body → http_message
  | response.mk m _ _ _ _ => m

/-- Body of a response. -/
def response.body {Body : Type} : response Body → Body
  | response.mk _ b _ _ _ => b

/-- Final URL of a response. -/
def response.url {Body : Type} : response Body → String
  | response.mk _ _ u _ _ => u

/-- Elapsed time of a response. -/
def response.elapsed {Body : Type} : response Body → Nat
  | response.mk _ _ _ e _ => e

/-- Redirect history of a response. -/
def response.history {Body : Type} : response Body → List (response Body)
  | response.mk _ _ _ _ h => h

/-- response::status_int: delegates to message.status_int(). -/
def response.status_int {Body : Type} (r : response Body) : Nat :=
  r.message.status

/-- response::reason: delegates to message.reason(). -/
def response.reason {Body : Type} (r : response Body) : String :=
  r.message.reason

/-- response::ok: success is a status below 400. -/
def response.ok {Body : Type} (r : response Body) : Bool :=
  r.status_int < 400

/-- response::raise_for_status (response.hpp lines 143-153): throw an
http_error built from the status, reason and URL when the status is at
least 400, otherwise do nothing.  The thrown exception is modelled as
`some`; a normal return as `none`. -/
def response.raise_for_status {Body : Type} (r : response Body) :
    Option http_error :=
  if 400 ≤ r.status_int then
    Option.some (http_error.make r.status_int r.reason r.url)
  else
    Option.none

/-- A default-constructed response<Body> around the default value of the
body type: zero status, empty reason, empty URL, zero elapsed time and
empty history. -/
def response.dflt {Body : Type} (b : Body) : response Body :=
  response.mk {} b "" 0 []

--------------------------------------------------------------------
-- Requests and authentication schemes
--------------------------------------------------------------------

/-- Header field names (boost::http::field); only Authorization is
distinguished by the embedded code. -/
inductive field where
  | authorization
  | other (name : String)
deriving DecidableEq, BEq

/-- An HTTP request modelled as its header fields (boost::http::request).
request::set stores a value for a field, replacing any existing one. -/
structure http_request where
  fields : List (field × String) := []
deriving DecidableEq

/-- Set a header field on a request, replacing any previous value. -/
def http_request.set (req : http_request) (f : field) (v : String) :
    http_request :=
  { fields := req.fields.filter (fun p => p.1 != f) ++ [(f, v)] }

/-- Read back a header field from a request. -/
def http_request.get_field (req : http_request) (f : field) : Option String :=
  (req.fields.find? (fun p => p.1 == f)).map (fun p => p.2)

/-- HTTP Basic authentication state (class http_basic_auth): the stored
credentials.  The encoded_ cache stays empty in the source. -/
structure http_basic_auth where
  username_ : String
  password_ : String
deriving DecidableEq

/-- http_basic_auth::apply (auth.cpp lines 33-42): sets the Authorization
header to the literal placeholder text "Basic <encoded>"; the base64
encoding of the credentials is left as a TODO in the source. -/
def http_basic_auth.apply (_a : http_basic_auth) (req : http_request) :
    http_request :=
  req.set field.authorization "Basic <encoded>"

/-- HTTP Digest authentication state (class http_digest_auth): credentials
plus the mutable challenge members with their in-class defaults.  The
member written opaque_ in the source is named oq_ here. -/
structure http_digest_auth where
  username_ : String
  password_ : String
  realm_ : String := ""
  nonce_ : String := ""
  oq_ : String := ""
  qop_ : String := ""
  algorithm_ : String := ""
  nc_ : Nat := 0
deriving DecidableEq

/-- Constructor http_digest_auth::http_digest_auth (auth.cpp lines 54-60):
stores the credentials; every challenge member keeps its default (empty)
value. -/
def http_digest_auth.make (username password : String) : http_digest_auth :=
  { username_ := username, password_ := password }

/-- http_digest_auth::apply (auth.cpp lines 62-80): with no cached
challenge (empty nonce) the request is returned untouched; otherwise the
placeholder Authorization value is set. -/
def http_digest_auth.apply (a : http_digest_auth) (req : http_request) :
    http_request :=
  if a.nonce_ = "" then req
  else req.set field.authorization "Digest <computed>"

/-- http_bearer_auth::apply (auth.cpp lines 117-121): sets the
Authorization header to "Bearer " followed by the token. -/
def http_bearer_auth.apply (token : String) (req : http_request) :
    http_request :=
  req.set field.authorization ("Bearer " ++ token)

--------------------------------------------------------------------
-- Session
--------------------------------------------------------------------

/-- Error codes for burl operations (enum class error, error.hpp lines
26-66). -/
inductive error where
  | success
  | invalid_url
  | invalid_scheme
  | resolve_failed
  | connection_failed
  | tls_handshake_failed
  | timeout
  | too_many_redirects
  | body_too_large
  | invalid_response
  | connection_closed
  | cancelled
  | not_implemented
deriving DecidableEq

/-- HTTP request methods used by the session (boost::http::method). -/
inductive method where
  | get
  | post
  | put
  | patch
  | delete_
  | head
  | options
deriving DecidableEq

/-- TLS verification configuration (struct verify_config, options.hpp). -/
structure verify_config where
  verify_peer : Bool := true
  ca_file : String := ""
  ca_path : String := ""
  hostname : String := ""
deriving DecidableEq

/-- The polymorphic auth_base pointer held by request options and by the
session: one of the three schemes of auth.cpp, or null. -/
inductive auth_ptr where
  | null
  | basic (a : http_basic_auth)
  | digest (a : http_digest_auth)
  | bearer (token : String)
deriving DecidableEq

/-- Per-request options (struct request_options, options.hpp). -/
structure request_options where
  headers : Option (List (field × String)) := Option.none
  json : Option String := Option.none
  data : Option String := Option.none
  timeout : Option Nat := Option.none
  max_redirects : Option Int := Option.none
  allow_redirects : Option Bool := Option.none
  verify : Option Bool := Option.none
  auth : auth_ptr := auth_ptr.null
deriving DecidableEq

/-- Connection pool key (session::impl::pool_key). -/
structure pool_key where
  host : String
  port : Nat
  https : Bool
deriving DecidableEq

/-- A pooled connection (session::impl::connection).  The owned socket
and TLS stream carry no state observable by the verified operations; a
connection is identified by a tag. -/
structure connection where
  id : Nat
deriving DecidableEq

/-- Session state (session::impl, session.cpp lines 29-104).  The
io_context and TLS context are caller-owned references with no state
observable here. -/
structure session where
  default_headers_ : List (field × String) := []
  cookies_ : List Cookie := []
  auth_ : auth_ptr := auth_ptr.null
  verify_ : verify_config := {}
  max_redirects_ : Int := 30
  timeout_ : Nat := 30000
  pools_ : List (pool_key × List connection) := []
deriving DecidableEq

/-- session::close (session.cpp lines 422-430): clear the connection
pools; nothing else changes. -/
def session.close (s : session) : session :=
  { s with pools_ := [] }

/-- A boost::json::value; default construction yields null. -/
inductive json_value where
  | null
  | bool (b : Bool)
  | num (n : Int)
  | str (s : String)
  | arr (elts : List json_value)
  | obj (members : List (String × json_value))

/-- HTTP response with streaming body (struct streamed_response,
response.hpp).  The body source is modelled by the byte chunks it will
yield; a default-constructed source yields none. -/
structure streamed_response where
  message : http_message := {}
  body : List (List Nat) := []
  url : String := ""

/-- session::request (session.cpp lines 302-311): the placeholder
co_returns error::not_implemented with a default-constructed response
and performs no session mutation, connection acquisition or I/O; the
unchanged session state is returned alongside the result to make that
explicit. -/
def session.request (s : session) (_m : method) (_url : UrlView)
    (_opts : request_options) : session × error × response String :=
  (s, error.not_implemented, response.dflt "")

/-- session::get: delegates to request with method::get. -/
def session.get (s : session) (url : UrlView) (opts : request_options) :
    session × error × response String :=
  s.request method.get url opts

/-- session::post: delegates to request with method::post. -/
def session.post (s : session) (url : UrlView) (opts : request_options) :
    session × error × response String :=
  s.request method.post url opts

/-- session::put: delegates to request with method::put. -/
def session.put (s : session) (url : UrlView) (opts : request_options) :
    session × error × response String :=
  s.request method.put url opts

/-- session::patch: delegates to request with method::patch. -/
def session.patch (s : session) (url : UrlView) (opts : request_options) :
    session × error × response String :=
  s.request method.patch url opts

/-- session::delete_: delegates to request with method::delete_. -/
def session.delete_ (s : session) (url : UrlView) (opts : request_options) :
    session × error × response String :=
  s.request method.delete_ url opts

/-- session::head: delegates to request with method::head. -/
def session.head (s : session) (url : UrlView) (opts : request_options) :
    session × error × response String :=
  s.request method.head url opts

/-- session::options: delegates to request with method::options. -/
def session.options (s : session) (url : UrlView) (opts : request_options) :
    session × error × response String :=
  s.request method.options url opts

/-- session::get with as_string_t (session.cpp lines 359-363): delegates
to the plain string get overload. -/
def session.get_as_string (s : session) (url : UrlView)
    (opts : request_options) : session × error × response String :=
  s.get url opts

/-- session::get with as_json_t (session.cpp lines 369-379): placeholder,
error::not_implemented and a default-constructed JSON response. -/
def session.get_as_json (s : session) (_url : UrlView)
    (_opts : request_options) : session × error × response json_value :=
  (s, error.not_implemented, response.dflt json_value.null)

/-- session::post with as_json_t (session.cpp lines 381-390):
placeholder, error::not_implemented and a default-constructed JSON
response. -/
def session.post_as_json (s : session) (_url : UrlView)
    (_opts : request_options) : session × error × response json_value :=
  (s, error.not_implemented, response.dflt json_value.null)

/-- session::get_streamed (session.cpp lines 396-408): placeholder,
error::not_implemented and a default-constructed streamed response. -/
def session.get_streamed (s : session) (_url : UrlView)
    (_opts : request_options) : session × error × streamed_response :=
  (s, error.not_implemented, {})

/-- session::post_streamed (session.cpp lines 410-416): placeholder,
error::not_implemented and a default-constructed streamed response. -/
def session.post_streamed (s : session) (_url : UrlView)
    (_opts : request_options) : session × error × streamed_response :=
  (s, error.not_implemented, {})

/-- session::get with as_type_t<T> (session.hpp lines 417-430):
placeholder, error::not_implemented and a default-constructed
response<T>.  The default value of T is passed explicitly as d. -/
def session.get_as_type (s : session) {T : Type} (d : T) (_url : UrlView)
    (_opts : request_options) : session × error × response T :=
  (s, error.not_implemented, response.dflt d)

/-- session::post with as_type_t<T> (session.hpp lines 432-445):
placeholder, error::not_implemented and a default-constructed
response<T>. -/
def session.post_as_type (s : session) {T : Type} (d : T) (_url : UrlView)
    (_opts : request_options) : session × error × response T :=
  (s, error.not_implemented, response.dflt d)

--------------------------------------------------------------------
-- Claim theorems
--------------------------------------------------------------------

/-- C1: the claim states that a cookie stored with domain example.com
matches request hosts example.com and api.example.com but not
notexample.com or example.com.evil.com.  Evaluating the embedded
cookie::matches shows that all four hosts match (and get_cookies returns
the cookie for notexample.com): the simplified domain check of the
source accepts every host longer than the cookie domain. -/
theorem c1_domain_match_eval :
    Cookie.matches { name := "sid", value := "1", domain := "example.com" }
      { host := "example.com", path := "/", isHttps := false } 0 = true
    ∧ Cookie.matches { name := "sid", value := "1", domain := "example.com" }
      { host := "api.example.com", path := "/", isHttps := false } 0 = true
    ∧ Cookie.matches { name := "sid", value := "1", domain := "example.com" }
      { host := "notexample.com", path := "/", isHttps := false } 0 = true
    ∧ Cookie.matches { name := "sid", value := "1", domain := "example.com" }
      { host := "example.com.evil.com", path := "/", isHttps := false } 0 = true
    ∧ CookieJar.get_cookies [{ name := "sid", value := "1", domain := "example.com" }]
      { host := "notexample.com", path := "/", isHttps := false } 0 =
      [{ name := "sid", value := "1", domain := "example.com" }] := by
  decide

/-- C2: after cookie_jar::set(c) on any reachable jar, exactly one stored
cookie carries the key (c.name, c.domain, c.path) and it is the newly
inserted cookie c itself (the key-holder subsequence is exactly [c], so
any old entry with that key was replaced), the subsequence of cookies
with a different key is unchanged, and no reachable jar ever holds two
cookies with the same key. -/
theorem c2_set_replaces_key (jar : List Cookie) (c : Cookie)
    (h : CookieJar.Reachable jar) :
    (CookieJar.set jar c).countP (fun e => sameKey e c) = 1
    ∧ (CookieJar.set jar c).filter (fun e => sameKey e c) = [c]
    ∧ (CookieJar.set jar c).filter (fun e => !sameKey e c)
        = jar.filter (fun e => !sameKey e c)
    ∧ ∀ j, CookieJar.Reachable j → NoDupKey j := by
  refine ⟨countP_set c (reachable_noDupKey h), ?_, ?_,
    fun j hj => reachable_noDupKey hj⟩
  · unfold CookieJar.set
    rw [List.filter_append]
    have hnil : (jar.eraseP (fun e => sameKey e c)).filter
        (fun e => sameKey e c) = [] := by
      rw [List.filter_eq_nil_iff]
      intro a ha
      simp [eraseP_sameKey_spec (reachable_noDupKey h) a ha]
    rw [hnil]
    simp [sameKey_self]
  · unfold CookieJar.set
    rw [List.filter_append, filter_not_eraseP]
    simp [sameKey_self]

/-- Witness for C2 at the empty jar and a concrete cookie. -/
theorem c2_set_replaces_key_witness :
    CookieJar.Reachable []
    ∧ (CookieJar.set [] { name := "s", value := "1", domain := "h" }).countP
        (fun e => sameKey e { name := "s", value := "1", domain := "h" }) = 1
    ∧ (CookieJar.set [] { name := "s", value := "1", domain := "h" }).filter
        (fun e => sameKey e { name := "s", value := "1", domain := "h" })
        = [{ name := "s", value := "1", domain := "h" }] :=
  ⟨CookieJar.Reachable.init,
   (c2_set_replaces_key [] { name := "s", value := "1", domain := "h" }
      CookieJar.Reachable.init).1,
   (c2_set_replaces_key [] { name := "s", value := "1", domain := "h" }
      CookieJar.Reachable.init).2.1⟩

/-- C3: the claim states that get_cookies orders its result by cookie
path length descending.  Evaluating the embedded cookie_jar::get_cookies
on a jar holding a path "/" cookie inserted before a path "/api" cookie,
for a URL matching both, returns them in insertion order, with the
shorter path first: the source performs no sorting. -/
theorem c3_get_cookies_order_eval :
    CookieJar.get_cookies
      [{ name := "a", value := "1", domain := "h", path := "/" },
       { name := "b", value := "2", domain := "h", path := "/api" }]
      { host := "h", path := "/api/x", isHttps := false } 0 =
      [{ name := "a", value := "1", domain := "h", path := "/" },
       { name := "b", value := "2", domain := "h", path := "/api" }] := by
  decide

/-- C4: storing one plain cookie (secure = false, no expiry) for host H
and path P into an empty jar and serializing for the matching http URL
yields "<name>=<value>"; a jar with no matching cookies serializes to
the empty string; and in general the header joins the matching cookies
as name=value pairs separated by "; ". -/
theorem c4_cookie_header_round_trip (jar : List Cookie) (url : UrlView)
    (now : Nat) (n v H P : String) :
    CookieJar.get_cookie_header
        [{ name := n, value := v, domain := H, path := P }]
        { host := H, path := P, isHttps := false } now = n ++ "=" ++ v
    ∧ ((∀ c ∈ jar, c.matches url now = false) →
        CookieJar.get_cookie_header jar url now = "")
    ∧ CookieJar.get_cookie_header jar url now
        = String.intercalate "; "
            ((CookieJar.get_cookies jar url now).map
              (fun c => c.name ++ "=" ++ c.value)) := by
  refine ⟨?_, ?_, ?_⟩
  · have hm := matches_exact n v H P now
    simp [CookieJar.get_cookie_header, CookieJar.get_cookies, hm,
      intercalate_singleton]
  · intro hno
    have hnil : CookieJar.get_cookies jar url now = [] := by
      rw [CookieJar.get_cookies, List.filter_eq_nil_iff]
      intro a ha
      simp [hno a ha]
    simp [CookieJar.get_cookie_header, hnil]
  · unfold CookieJar.get_cookie_header
    dsimp only
    by_cases hemp : (CookieJar.get_cookies jar url now).isEmpty = true
    · rw [if_pos hemp, List.isEmpty_iff.mp hemp]
      rfl
    · rw [if_neg hemp]

/-- Witness for C4 at a concrete cookie and an empty jar. -/
theorem c4_cookie_header_round_trip_witness :
    CookieJar.get_cookie_header
        [{ name := "s", value := "1", domain := "h", path := "/" }]
        { host := "h", path := "/", isHttps := false } 0 = "s=1"
    ∧ CookieJar.get_cookie_header []
        { host := "h", path := "/", isHttps := false } 0 = "" :=
  ⟨(c4_cookie_header_round_trip [] { host := "h", path := "/", isHttps := false }
      0 "s" "1" "h" "/").1,
   (c4_cookie_header_round_trip [] { host := "h", path := "/", isHttps := false }
      0 "s" "1" "h" "/").2.1 (fun c hc => absurd hc (List.not_mem_nil c))⟩

/-- C5: the claim states that set_from_header trims whitespace around the
name and value and derives the default path from the request URL path.
Evaluating the embedded cookie_jar::set_from_header on "sid = 42"
against a request to path "/a/b" stores name "sid " and value " 42"
untrimmed, with path "/" rather than the derived "/a". -/
theorem c5_set_from_header_eval :
    CookieJar.set_from_header [] "sid = 42"
        { host := "h", path := "/a/b", isHttps := false } =
      [{ name := "sid ", value := " 42", domain := "h", path := "/" }] := by
  decide

/-- C6: raise_for_status yields an http_error exactly when the status is
at least 400; the error carries the response status, reason and URL
unchanged; a status below 400 produces no effect. -/
theorem c6_raise_for_status_spec {Body : Type} (r : response Body) :
    ((r.raise_for_status).isSome ↔ 400 ≤ r.status_int)
    ∧ (∀ e, r.raise_for_status = Option.some e →
        e.status_code_ = r.status_int ∧ e.reason_ = r.reason ∧ e.url_ = r.url)
    ∧ (r.status_int < 400 → r.raise_for_status = Option.none) := by
  by_cases h : 400 ≤ r.status_int
  · refine ⟨?_, ?_, ?_⟩
    · simp [response.raise_for_status, h]
    · intro e he
      rw [response.raise_for_status, if_pos h] at he
      injection he with he
      subst he
      exact ⟨rfl, rfl, rfl⟩
    · intro hlt
      omega
  · refine ⟨?_, ?_, ?_⟩
    · simp [response.raise_for_status, h]
    · intro e he
      rw [response.raise_for_status, if_neg h] at he
      cases he
    · intro _
      rw [response.raise_for_status, if_neg h]

/-- Witness for C6 at a 404 response and a 200 response. -/
theorem c6_raise_for_status_witness :
    (response.raise_for_status
        (response.mk { status := 404, reason := "Not Found" } "" "http://h/x" 0 []
          : response String)).isSome = true
    ∧ response.raise_for_status
        (response.mk { status := 200, reason := "OK" } "" "http://h/" 0 []
          : response String) = Option.none :=
  ⟨(c6_raise_for_status_spec
      (response.mk { status := 404, reason := "Not Found" } "" "http://h/x" 0 []
        : response String)).1.mpr (by decide),
   (c6_raise_for_status_spec
      (response.mk { status := 200, reason := "OK" } "" "http://h/" 0 []
        : response String)).2.2 (by decide)⟩

/-- C7: the claim states that http_basic_auth::apply sets Authorization
to "Basic " followed by base64(username ":" password).  Evaluating the
embedded apply shows the header is the literal placeholder
"Basic <encoded>", independent of the credentials, and differs from the
required base64 form ("Basic dXNlcjpwYXNz" for user/pass). -/
theorem c7_basic_auth_placeholder :
    http_request.get_field
        (http_basic_auth.apply { username_ := "user", password_ := "pass" }
          { fields := [] }) field.authorization = Option.some "Basic <encoded>"
    ∧ http_basic_auth.apply { username_ := "user", password_ := "pass" }
        { fields := [] }
      = http_basic_auth.apply { username_ := "a", password_ := "b" }
        { fields := [] }
    ∧ "Basic <encoded>" ≠ "Basic dXNlcjpwYXNz" := by
  refine ⟨rfl, rfl, by decide⟩

/-- C8: a digest auth state with no cached challenge (empty nonce) leaves
the request completely unchanged under apply, and a freshly constructed
http_digest_auth has an empty nonce. -/
theorem c8_digest_initial_noop (u p : String) (st : http_digest_auth)
    (req : http_request) (h : st.nonce_ = "") :
    http_digest_auth.apply st req = req
    ∧ (http_digest_auth.make u p).nonce_ = "" := by
  constructor
  · simp [http_digest_auth.apply, h]
  · rfl

/-- Witness for C8 at a freshly constructed digest state and a request
with one header. -/
theorem c8_digest_initial_noop_witness :
    (http_digest_auth.make "u" "p").nonce_ = ""
    ∧ http_digest_auth.apply (http_digest_auth.make "u" "p")
        { fields := [(field.other "Host", "h")] }
      = { fields := [(field.other "Host", "h")] } :=
  ⟨rfl,
   (c8_digest_initial_noop "u" "p" (http_digest_auth.make "u" "p")
      { fields := [(field.other "Host", "h")] } rfl).1⟩

/-- C9: session::close empties the connection pools, and a request issued
on the closed session is refused with error::not_implemented and a
default response, leaving the closed session state (with its empty
pools) untouched: no connection is acquired or dialed. -/
theorem c9_close_drops_pools (s : session) (m : method) (url : UrlView)
    (opts : request_options) :
    (session.close s).pools_ = []
    ∧ session.request (session.close s) m url opts
        = (session.close s, error.not_implemented, response.dflt "") :=
  ⟨rfl, rfl⟩

/-- C10: every session HTTP operation — request, the seven named
convenience wrappers, the as_string, as_json, as_type and streamed
overloads — completes with error::not_implemented, a default-constructed
response and an unchanged session state, for every URL and options
value. -/
theorem c10_all_not_implemented (s : session) (m : method) (url : UrlView)
    (opts : request_options) (T : Type) (d : T) :
    s.request m url opts = (s, error.not_implemented, response.dflt "")
    ∧ s.get url opts = (s, error.not_implemented, response.dflt "")
    ∧ s.post url opts = (s, error.not_implemented, response.dflt "")
    ∧ s.put url opts = (s, error.not_implemented, response.dflt "")
    ∧ s.patch url opts = (s, error.not_implemented, response.dflt "")
    ∧ s.delete_ url opts = (s, error.not_implemented, response.dflt "")
    ∧ s.head url opts = (s, error.not_implemented, response.dflt "")
    ∧ s.options url opts = (s, error.not_implemented, response.dflt "")
    ∧ s.get_as_string url opts = (s, error.not_implemented, response.dflt "")
    ∧ s.get_as_json url opts
        = (s, error.not_implemented, response.dflt json_value.null)
    ∧ s.post_as_json url opts
        = (s, error.not_implemented, response.dflt json_value.null)
    ∧ s.get_streamed url opts = (s, error.not_implemented, {})
    ∧ s.post_streamed url opts = (s, error.not_implemented, {})
    ∧ s.get_as_type d url opts = (s, error.not_implemented, response.dflt d)
    ∧ s.post_as_type d url opts = (s, error.not_implemented, response.dflt d) :=
  ⟨rfl, rfl, rfl, rfl, rfl, rfl, rfl, rfl, rfl, rfl, rfl, rfl, rfl, rfl, rfl⟩

end Burl
